import Mathlib

/-!
Verification of the dataset-preparation lifecycle implemented in
`src/artifact/src/dataset/dataset.py` (class `Dataset`).

The development shallowly embeds the code:

* bytes are `Nat` values below 256, file contents are `List Nat`;
* the MD5 collaborator (`hashlib.md5`) is implemented concretely per
  RFC 1321, so digest comparisons are executable;
* the filesystem visible to the class (archive file, extracted
  directory, manifest file) is an explicit state record `FS`;
* external collaborators (the HTTP fetch, `tarfile.extractall`,
  `datetime.now`, the process working directory used by
  `Path.resolve`) are inputs gathered in `Env`;
* `Dataset.prepare` becomes the pure function `prepare`, returning the
  result, the new filesystem state, and a log of which steps ran.
-/

/-! ### MD5 (RFC 1321), the concrete model of `hashlib.md5` -/

/-- 32-bit left rotation on `Nat`, result reduced mod `2^32`. -/
def rotl32 (x s : Nat) : Nat :=
  (((x % 4294967296) <<< s) ||| ((x % 4294967296) >>> (32 - s))) % 4294967296

/-- The 64 MD5 round constants `K[i] = floor(2^32 * |sin(i+1)|)`. -/
def md5K : List Nat :=
  [0xd76aa478, 0xe8c7b756, 0x242070db, 0xc1bdceee,
   0xf57c0faf, 0x4787c62a, 0xa8304613, 0xfd469501,
   0x698098d8, 0x8b44f7af, 0xffff5bb1, 0x895cd7be,
   0x6b901122, 0xfd987193, 0xa679438e, 0x49b40821,
   0xf61e2562, 0xc040b340, 0x265e5a51, 0xe9b6c7aa,
   0xd62f105d, 0x02441453, 0xd8a1e681, 0xe7d3fbc8,
   0x21e1cde6, 0xc33707d6, 0xf4d50d87, 0x455a14ed,
   0xa9e3e905, 0xfcefa3f8, 0x676f02d9, 0x8d2a4c8a,
   0xfffa3942, 0x8771f681, 0x6d9d6122, 0xfde5380c,
   0xa4beea44, 0x4bdecfa9, 0xf6bb4b60, 0xbebfbc70,
   0x289b7ec6, 0xeaa127fa, 0xd4ef3085, 0x04881d05,
   0xd9d4d039, 0xe6db99e5, 0x1fa27cf8, 0xc4ac5665,
   0xf4292244, 0x432aff97, 0xab9423a7, 0xfc93a039,
   0x655b59c3, 0x8f0ccc92, 0xffeff47d, 0x85845dd1,
   0x6fa87e4f, 0xfe2ce6e0, 0xa3014314, 0x4e0811a1,
   0xf7537e82, 0xbd3af235, 0x2ad7d2bb, 0xeb86d391]

/-- The MD5 per-round left-shift amounts. -/
def md5S : List Nat :=
  [7, 12, 17, 22, 7, 12, 17, 22, 7, 12, 17, 22, 7, 12, 17, 22,
   5, 9, 14, 20, 5, 9, 14, 20, 5, 9, 14, 20, 5, 9, 14, 20,
   4, 11, 16, 23, 4, 11, 16, 23, 4, 11, 16, 23, 4, 11, 16, 23,
   6, 10, 15, 21, 6, 10, 15, 21, 6, 10, 15, 21, 6, 10, 15, 21]

/-- Little-endian 32-bit word `j` of a 64-byte block. -/
def blockWord (block : List Nat) (j : Nat) : Nat :=
  block.getD (4 * j) 0 % 256 +
  256 * (block.getD (4 * j + 1) 0 % 256) +
  65536 * (block.getD (4 * j + 2) 0 % 256) +
  16777216 * (block.getD (4 * j + 3) 0 % 256)

/-- One of the 64 MD5 rounds applied to the state `(a, b, c, d)`. -/
def md5Round (block : List Nat) (st : Nat × Nat × Nat × Nat) (i : Nat) :
    Nat × Nat × Nat × Nat :=
  let (a, b, c, d) := st
  let fg : Nat × Nat :=
    if i < 16 then ((b &&& c) ||| ((b ^^^ 0xffffffff) &&& d), i)
    else if i < 32 then ((d &&& b) ||| ((d ^^^ 0xffffffff) &&& c), (5 * i + 1) % 16)
    else if i < 48 then (b ^^^ c ^^^ d, (3 * i + 5) % 16)
    else (c ^^^ (b ||| (d ^^^ 0xffffffff)), (7 * i) % 16)
  let f := (fg.1 + a + md5K.getD i 0 + blockWord block fg.2) % 4294967296
  (d, (b + rotl32 f (md5S.getD i 0)) % 4294967296, b, c)

/-- MD5 compression of one 64-byte block into the running state. -/
def md5Block (st : Nat × Nat × Nat × Nat) (block : List Nat) :
    Nat × Nat × Nat × Nat :=
  let (a0, b0, c0, d0) := st
  let (a, b, c, d) := (List.range 64).foldl (md5Round block) st
  ((a0 + a) % 4294967296, (b0 + b) % 4294967296,
   (c0 + c) % 4294967296, (d0 + d) % 4294967296)

/-- MD5 padding: `0x80`, zeros to 56 mod 64, then the 64-bit
little-endian bit length of the message. -/
def md5Pad (msg : List Nat) : List Nat :=
  let len := msg.length
  let zeros := (56 + 64 - ((len + 1) % 64)) % 64
  let bitLen := (len * 8) % 18446744073709551616
  msg ++ [0x80] ++ List.replicate zeros 0 ++
    (List.range 8).map (fun j => (bitLen >>> (8 * j)) % 256)

/-- Splits a byte list into successive chunks of `n` bytes (the last
chunk may be shorter), with an explicit fuel argument so the recursion
is structural; `fuel ≥ bs.length` suffices for `n ≥ 1`. This embeds the
`iter(lambda: f.read(CHUNK_SIZE), b"")` read loop of `Dataset._md5`. -/
def chunksOfAux (n : Nat) : Nat → List Nat → List (List Nat)
  | 0, _ => []
  | _, [] => []
  | fuel + 1, b :: bs => (b :: bs).take n :: chunksOfAux n fuel ((b :: bs).drop n)

/-- Splits a byte list into successive chunks of `n` bytes. -/
def chunksOf (n : Nat) (bs : List Nat) : List (List Nat) :=
  chunksOfAux n bs.length bs

/-- Lowercase hex digit for `n < 16`. -/
def hexDigit (n : Nat) : Char :=
  if n < 10 then Char.ofNat (48 + n) else Char.ofNat (87 + n)

/-- A byte rendered as two lowercase hex digits. -/
def byteHex (b : Nat) : String :=
  String.mk [hexDigit (b / 16 % 16), hexDigit (b % 16)]

/-- A 32-bit word rendered as little-endian bytes in lowercase hex. -/
def wordLEHex (w : Nat) : String :=
  byteHex (w % 256) ++ byteHex (w / 256 % 256) ++
  byteHex (w / 65536 % 256) ++ byteHex (w / 16777216 % 256)

/-- MD5 of a whole byte sequence in one pass: pad, compress each
64-byte block, render the final state as 32 lowercase hex digits. -/
def md5Hex (msg : List Nat) : String :=
  let st := (chunksOf 64 (md5Pad msg)).foldl md5Block
    (0x67452301, 0xefcdab89, 0x98badcfe, 0x10325476)
  wordLEHex st.1 ++ wordLEHex st.2.1 ++ wordLEHex st.2.2.1 ++ wordLEHex st.2.2.2

/-! ### The streaming hash of `Dataset._md5`

`hashlib`'s documented contract is that `m.update(a); m.update(b)` is
equivalent to `m.update(a + b)`: the object's observable state is the
byte sequence absorbed so far, and `hexdigest()` is MD5 of that
sequence. `MD5Ctx` models the object at that observable level, with
`md5Hex` above as the concrete digest. -/

/-- Observable state of a `hashlib.md5 ()` object: the bytes absorbed
so far (initially none). -/
def MD5Ctx : Type := List Nat

/-- `hashlib.md5 ()`: a fresh context with no bytes absorbed. -/
def MD5Ctx.init : MD5Ctx := []

/-- `m.update(chunk)`: absorbs further bytes. -/
def MD5Ctx.update (ctx : MD5Ctx) (chunk : List Nat) : MD5Ctx :=
  List.append ctx chunk

/-- `m.hexdigest()`: MD5 of the absorbed bytes, lowercase hex. -/
def MD5Ctx.hexdigest (ctx : MD5Ctx) : String :=
  md5Hex ctx

/-- `Dataset._md5`: reads the file in chunks of `CHUNK_SIZE = 8192`
bytes, feeding each chunk to the hash object, then asks for the hex
digest. `content` is the full byte content of the file at `path`. -/
def md5File (content : List Nat) : String :=
  ((chunksOf 8192 content).foldl MD5Ctx.update MD5Ctx.init).hexdigest

/-! ### Data model: descriptor, paths, filesystem, environment -/

/-- The class-level attributes a `Dataset` subclass must define
(`name`, `url`, `checksum`, `archive_name`, `extracted_dir`). -/
structure Descriptor where
  name : String
  url : String
  checksum : String
  archive_name : String
  extracted_dir : String
deriving DecidableEq

/-- `self.archive_path = self.root / self.archive_name`. -/
def archivePath (d : Descriptor) (root : String) : String :=
  root ++ "/" ++ d.archive_name

/-- `self.extracted_path = self.root / self.extracted_dir`. -/
def extractedPath (d : Descriptor) (root : String) : String :=
  root ++ "/" ++ d.extracted_dir

/-- `self.manifest_path`: the root joined with the name lower-cased,
spaces replaced by underscores, suffixed `.manifest.json`. -/
def manifestPath (d : Descriptor) (root : String) : String :=
  root ++ "/" ++ (d.name.toLower.replace " " "_" ++ ".manifest.json")

/-- The manifest record built by `Dataset._write_manifest`. -/
structure Manifest where
  name : String
  source_url : String
  archive_name : String
  checksum : String
  prepared_at : String
  dataset_path : String
  archive_path : String
deriving DecidableEq

/-- The JSON object `_write_manifest` serializes, as its ordered
key/value pairs (all values are JSON strings). -/
def manifestJson (m : Manifest) : List (String × String) :=
  [("name", m.name), ("source_url", m.source_url),
   ("archive_name", m.archive_name), ("checksum", m.checksum),
   ("prepared_at", m.prepared_at), ("dataset_path", m.dataset_path),
   ("archive_path", m.archive_path)]

/-- Observable content of the file at `manifest_path`. Python's
`open(path, "w")` truncates the file at open time, and `json.dump`
then streams the serialized record into it, so between the open and
the completed dump the file exists with empty content. -/
inductive MFile where
  | empty : MFile
  | record : Manifest → MFile
deriving DecidableEq

/-- The filesystem state visible to the `Dataset` instance: the byte
content of the file at `archive_path` (if it exists), whether
`extracted_path` exists, and the content of the file at
`manifest_path` (if it exists). -/
structure FS where
  archive : Option (List Nat)
  extractedDirExists : Bool
  manifest : Option MFile
deriving DecidableEq

/-- External inputs consumed during one `prepare()` call:
`fetched` is the byte stream `requests.get(self.url)` yields,
`unpack` is `tarfile.extractall`'s behavior on an archive's bytes
(`none`: it raises; `some b`: it succeeds and `b` says whether
`extracted_dir` is created as a top-level entry), `now` is
`datetime.now(timezone.utc).isoformat()`, and `cwd` is the process
working directory that `Path.resolve()` prepends. -/
structure Env where
  fetched : List Nat
  unpack : List Nat → Option Bool
  now : String
  cwd : String

/-- Whether a POSIX path string is absolute. -/
def isAbsolutePath (s : String) : Bool :=
  match s.data with
  | [] => false
  | c :: _ => c == '/'

/-- `Path.resolve()`: returns the path unchanged when already
absolute, otherwise anchors it at the working directory (symlink
normalization is irrelevant to the properties below). -/
def resolve (cwd p : String) : String :=
  if isAbsolutePath p then p else cwd ++ "/" ++ p

/-- The record `Dataset._write_manifest` builds. -/
def mkManifest (d : Descriptor) (root : String) (env : Env) : Manifest :=
  { name := d.name
    source_url := d.url
    archive_name := d.archive_name
    checksum := d.checksum
    prepared_at := env.now
    dataset_path := resolve env.cwd (extractedPath d root)
    archive_path := resolve env.cwd (archivePath d root) }

/-! ### The preparation state machine -/

/-- The errors `prepare()` can raise: the `RuntimeError` of `_verify`
(with its message) and a propagated `tarfile` extraction error. -/
inductive PrepError where
  | integrity : String → PrepError
  | extraction : PrepError
deriving DecidableEq

/-- Which of the four work steps a `prepare()` call executed. -/
structure Log where
  ranDownload : Bool
  ranVerify : Bool
  ranExtract : Bool
  ranWriteManifest : Bool
deriving DecidableEq

instance {ε α : Type} [DecidableEq ε] [DecidableEq α] :
    DecidableEq (Except ε α) := fun a b =>
  match a, b with
  | .ok x, .ok y =>
    if h : x = y then .isTrue (congrArg Except.ok h)
    else .isFalse (fun c => h (Except.ok.inj c))
  | .error x, .error y =>
    if h : x = y then .isTrue (congrArg Except.error h)
    else .isFalse (fun c => h (Except.error.inj c))
  | .ok _, .error _ => .isFalse (fun c => Except.noConfusion c)
  | .error _, .ok _ => .isFalse (fun c => Except.noConfusion c)

/-- Outcome of one `prepare()` call: the returned path or raised
error, the filesystem afterwards, and the step log. -/
structure PrepResult where
  result : Except PrepError String
  fs : FS
  log : Log
deriving DecidableEq

/-- The step-1 fast path: `self.extracted_path.exists() and
self.manifest_path.exists()`. -/
def shortCircuitStep (fs : FS) : Bool :=
  fs.extractedDirExists && fs.manifest.isSome

/-- `self.archive_path.unlink(missing_ok=True)`: removes the archive
file; with `missing_ok` this succeeds (is a no-op) when the file is
already absent. -/
def unlinkMissingOk (fs : FS) : FS :=
  { fs with archive := none }

/-- The bytes at `archive_path` once step 2 has run: the pre-existing
file's content, or the freshly downloaded stream when it was absent. -/
def effectiveArchive (env : Env) (fs : FS) : List Nat :=
  match fs.archive with
  | some c => c
  | none => env.fetched

/-- `Dataset.prepare`:
1. if `extracted_path` and `manifest_path` both exist, return
   `extracted_path` (no work);
2. if `archive_path` does not exist, download (`_download` streams
   `env.fetched` into the file);
3. `_verify`: compare `_md5(archive_path)` with `self.checksum`; on
   mismatch unlink the archive and raise
   `RuntimeError(f"{self.name} archive checksum mismatch.")`;
4. `_extract`: `tarfile.extractall` into the root (an error
   propagates);
5. `_write_manifest`; return `extracted_path`. -/
def prepare (d : Descriptor) (root : String) (env : Env) (fs : FS) :
    PrepResult :=
  if shortCircuitStep fs then
    ⟨.ok (extractedPath d root), fs, ⟨false, false, false, false⟩⟩
  else
    let dl := fs.archive.isNone
    let content := effectiveArchive env fs
    let fs1 : FS := { fs with archive := some content }
    if md5File content ≠ d.checksum then
      ⟨.error (.integrity (d.name ++ " archive checksum mismatch.")),
       unlinkMissingOk fs1, ⟨dl, true, false, false⟩⟩
    else
      match env.unpack content with
      | none => ⟨.error .extraction, fs1, ⟨dl, true, true, false⟩⟩
      | some creates =>
        let fs2 : FS :=
          { fs1 with extractedDirExists := fs1.extractedDirExists || creates }
        let fs3 : FS :=
          { fs2 with manifest := some (.record (mkManifest d root env)) }
        ⟨.ok (extractedPath d root), fs3, ⟨dl, true, true, true⟩⟩

/-- `Dataset._write_manifest` at the granularity a concurrent reader
of `manifest_path` could observe: the state before the call, the state
right after `open(self.manifest_path, "w")` truncates the file, and
the state after `json.dump` has written the complete record. -/
def writeManifestStates (m : Manifest) (fs : FS) : List FS :=
  [fs,
   { fs with manifest := some .empty },
   { fs with manifest := some (.record m) }]

/-! ### Helper lemmas -/

theorem foldl_update_eq (l : List (List Nat)) (acc : MD5Ctx) :
    l.foldl MD5Ctx.update acc = List.append acc l.flatten := by
  induction l generalizing acc with
  | nil => simp [List.flatten]
  | cons c cs ih =>
    simp only [List.foldl_cons, List.flatten_cons, ih, MD5Ctx.update]
    simp [List.append_assoc]

theorem join_chunksOfAux (n : Nat) (hn : 1 ≤ n) :
    ∀ (fuel : Nat) (bs : List Nat), bs.length ≤ fuel →
      (chunksOfAux n fuel bs).flatten = bs
  | 0, [], _ => rfl
  | 0, _ :: _, h => absurd h (by simp)
  | _ + 1, [], _ => rfl
  | fuel + 1, b :: bs, h => by
    have hlen : ((b :: bs).drop n).length ≤ fuel := by
      simp only [List.length_cons] at h
      rw [List.length_drop, List.length_cons]
      omega
    simp only [chunksOfAux, List.flatten_cons,
      join_chunksOfAux n hn fuel _ hlen, List.take_append_drop]

theorem join_chunksOf (n : Nat) (hn : 1 ≤ n) (bs : List Nat) :
    (chunksOf n bs).flatten = bs :=
  join_chunksOfAux n hn bs.length bs le_rfl

theorem isAbsolutePath_ne_empty {s : String} (h : isAbsolutePath s = true) :
    s ≠ "" := by
  intro he
  rw [he] at h
  exact absurd h (by decide)

theorem isAbsolutePath_append (a b : String)
    (h : isAbsolutePath a = true) : isAbsolutePath (a ++ b) = true := by
  unfold isAbsolutePath at h ⊢
  rw [String.data_append]
  cases hd : a.data with
  | nil => rw [hd] at h; exact absurd h (by simp)
  | cons c cs => rw [hd] at h; simpa using h

theorem isAbsolutePath_resolve (cwd p : String)
    (h : isAbsolutePath cwd = true) :
    isAbsolutePath (resolve cwd p) = true := by
  unfold resolve
  split
  · assumption
  · exact isAbsolutePath_append _ _ (isAbsolutePath_append _ _ h)

theorem resolve_ne_empty (cwd p : String) (h : isAbsolutePath cwd = true) :
    resolve cwd p ≠ "" :=
  isAbsolutePath_ne_empty (isAbsolutePath_resolve cwd p h)


/-! ### Branch equations for `prepare` -/

theorem prepare_shortCircuit (d : Descriptor) (root : String) (env : Env)
    (fs : FS) (hsc : shortCircuitStep fs = true) :
    prepare d root env fs =
      ⟨.ok (extractedPath d root), fs, ⟨false, false, false, false⟩⟩ := by
  simp [prepare, hsc]

theorem prepare_mismatch (d : Descriptor) (root : String) (env : Env)
    (fs : FS) (hsc : shortCircuitStep fs = false)
    (hm : md5File (effectiveArchive env fs) ≠ d.checksum) :
    prepare d root env fs =
      ⟨.error (.integrity (d.name ++ " archive checksum mismatch.")),
       { fs with archive := none },
       ⟨fs.archive.isNone, true, false, false⟩⟩ := by
  simp [prepare, hsc, hm, unlinkMissingOk]

theorem prepare_extractFail (d : Descriptor) (root : String) (env : Env)
    (fs : FS) (hsc : shortCircuitStep fs = false)
    (hm : md5File (effectiveArchive env fs) = d.checksum)
    (hu : env.unpack (effectiveArchive env fs) = none) :
    prepare d root env fs =
      ⟨.error .extraction,
       { fs with archive := some (effectiveArchive env fs) },
       ⟨fs.archive.isNone, true, true, false⟩⟩ := by
  simp [prepare, hsc, hm, hu]

theorem prepare_success (d : Descriptor) (root : String) (env : Env)
    (fs : FS) (b : Bool) (hsc : shortCircuitStep fs = false)
    (hm : md5File (effectiveArchive env fs) = d.checksum)
    (hu : env.unpack (effectiveArchive env fs) = some b) :
    prepare d root env fs =
      ⟨.ok (extractedPath d root),
       { fs with
          archive := some (effectiveArchive env fs),
          extractedDirExists := fs.extractedDirExists || b,
          manifest := some (.record (mkManifest d root env)) },
       ⟨fs.archive.isNone, true, true, true⟩⟩ := by
  simp [prepare, hsc, hm, hu]

theorem prepare_log_of_not_shortCircuit (d : Descriptor) (root : String)
    (env : Env) (fs : FS) (hsc : shortCircuitStep fs = false) :
    (prepare d root env fs).log.ranDownload = fs.archive.isNone ∧
    (prepare d root env fs).log.ranVerify = true := by
  by_cases hm : md5File (effectiveArchive env fs) = d.checksum
  · cases hu : env.unpack (effectiveArchive env fs) with
    | none => rw [prepare_extractFail d root env fs hsc hm hu]; exact ⟨rfl, rfl⟩
    | some b => rw [prepare_success d root env fs b hsc hm hu]; exact ⟨rfl, rfl⟩
  · rw [prepare_mismatch d root env fs hsc hm]; exact ⟨rfl, rfl⟩

theorem prepare_integrity_iff (d : Descriptor) (root : String) (env : Env)
    (fs : FS) (msg : String) (hsc : shortCircuitStep fs = false) :
    (prepare d root env fs).result = .error (.integrity msg) ↔
      (md5File (effectiveArchive env fs) ≠ d.checksum ∧
        msg = d.name ++ " archive checksum mismatch.") := by
  by_cases hm : md5File (effectiveArchive env fs) = d.checksum
  · cases hu : env.unpack (effectiveArchive env fs) with
    | none => rw [prepare_extractFail d root env fs hsc hm hu]; simp [hm]
    | some b => rw [prepare_success d root env fs b hsc hm hu]; simp [hm]
  · rw [prepare_mismatch d root env fs hsc hm]
    simp [hm]
    exact eq_comm

/-! ### Claims -/

/-- C1: when both `extracted_path` and `manifest_path` exist,
`prepare()` returns `extracted_path` at once: no download, no
verification, no extraction, no manifest write, and the filesystem is
unchanged — in particular this holds whether or not the archive file
exists on disk. -/
theorem C1_short_circuit (d : Descriptor) (root : String) (env : Env)
    (fs : FS) (hext : fs.extractedDirExists = true)
    (hman : fs.manifest.isSome = true) :
    prepare d root env fs =
      ⟨.ok (extractedPath d root), fs, ⟨false, false, false, false⟩⟩ :=
  prepare_shortCircuit d root env fs
    (by simp [shortCircuitStep, hext, hman])

/-- Witness for C1 at a concrete state whose archive file is absent. -/
theorem C1_short_circuit_witness :
    prepare ⟨"MNIST", "http://host/a.tgz", "c0ffee", "a.tgz", "mnist"⟩
        "datasets/data"
        ⟨[], fun _ => none, "2026-10-12T00:00:00+00:00", "/home/user"⟩
        ⟨none, true, some .empty⟩ =
      ⟨.ok "datasets/data/mnist", ⟨none, true, some .empty⟩,
       ⟨false, false, false, false⟩⟩ :=
  C1_short_circuit ⟨"MNIST", "http://host/a.tgz", "c0ffee", "a.tgz", "mnist"⟩
    "datasets/data"
    ⟨[], fun _ => none, "2026-10-12T00:00:00+00:00", "/home/user"⟩
    ⟨none, true, some .empty⟩ rfl rfl

/-- C2: when step 1 does not short-circuit and the digest of the bytes
at `archive_path` differs from `self.checksum`, `prepare()` raises
`RuntimeError(f"{self.name} archive checksum mismatch.")` — the
message names the dataset — the archive file no longer exists
afterwards, no manifest is written on this path, and the modelled
`unlink(missing_ok=True)` also succeeds on a state whose archive file
is already absent. -/
theorem C2_integrity_failure (d : Descriptor) (root : String) (env : Env)
    (fs : FS) (hsc : shortCircuitStep fs = false)
    (hmis : md5File (effectiveArchive env fs) ≠ d.checksum) :
    (prepare d root env fs).result =
      .error (.integrity (d.name ++ " archive checksum mismatch.")) ∧
    (prepare d root env fs).fs.archive = none ∧
    (prepare d root env fs).fs.manifest = fs.manifest ∧
    ∀ g : FS, (unlinkMissingOk g).archive = none := by
  rw [prepare_mismatch d root env fs hsc hmis]
  exact ⟨rfl, rfl, rfl, fun g => rfl⟩

/-- Witness for C2: empty archive bytes against a non-matching
checksum. -/
theorem C2_integrity_failure_witness :
    (prepare ⟨"MNIST", "http://host/a.tgz", "deadbeef", "a.tgz", "mnist"⟩
        "datasets/data"
        ⟨[], fun _ => some true, "2026-10-12T00:00:00+00:00", "/home/user"⟩
        ⟨some [], false, none⟩).result =
      .error (.integrity "MNIST archive checksum mismatch.") ∧
    (prepare ⟨"MNIST", "http://host/a.tgz", "deadbeef", "a.tgz", "mnist"⟩
        "datasets/data"
        ⟨[], fun _ => some true, "2026-10-12T00:00:00+00:00", "/home/user"⟩
        ⟨some [], false, none⟩).fs.archive = none := by
  have h := C2_integrity_failure
    ⟨"MNIST", "http://host/a.tgz", "deadbeef", "a.tgz", "mnist"⟩
    "datasets/data"
    ⟨[], fun _ => some true, "2026-10-12T00:00:00+00:00", "/home/user"⟩
    ⟨some [], false, none⟩ rfl (by decide)
  exact ⟨h.1, h.2.1⟩

/-- C3: whenever the step-1 short-circuit is not taken, the verify
step runs; the download step runs exactly when the archive file was
absent, so verification happens even over a pre-existing archive; and
the comparison is of the file's digest against `self.checksum`: a
mismatch produces the integrity error. -/
theorem C3_verify_always_runs (d : Descriptor) (root : String) (env : Env)
    (fs : FS) (hsc : shortCircuitStep fs = false) :
    (prepare d root env fs).log.ranVerify = true ∧
    (prepare d root env fs).log.ranDownload = fs.archive.isNone ∧
    (md5File (effectiveArchive env fs) ≠ d.checksum →
      (prepare d root env fs).result =
        .error (.integrity (d.name ++ " archive checksum mismatch."))) := by
  refine ⟨(prepare_log_of_not_shortCircuit d root env fs hsc).2,
    (prepare_log_of_not_shortCircuit d root env fs hsc).1, fun hmis => ?_⟩
  rw [prepare_mismatch d root env fs hsc hmis]

/-- Witness for C3 at a state whose archive file already exists, so
the download is skipped but verification still runs. -/
theorem C3_verify_always_runs_witness :
    (prepare ⟨"MNIST", "http://host/a.tgz", "deadbeef", "a.tgz", "mnist"⟩
        "datasets/data"
        ⟨[], fun _ => some true, "2026-10-12T00:00:00+00:00", "/home/user"⟩
        ⟨some [1, 2, 3], false, none⟩).log.ranVerify = true ∧
    (prepare ⟨"MNIST", "http://host/a.tgz", "deadbeef", "a.tgz", "mnist"⟩
        "datasets/data"
        ⟨[], fun _ => some true, "2026-10-12T00:00:00+00:00", "/home/user"⟩
        ⟨some [1, 2, 3], false, none⟩).log.ranDownload =
      (some [1, 2, 3] : Option (List Nat)).isNone := by
  have h := C3_verify_always_runs
    ⟨"MNIST", "http://host/a.tgz", "deadbeef", "a.tgz", "mnist"⟩
    "datasets/data"
    ⟨[], fun _ => some true, "2026-10-12T00:00:00+00:00", "/home/user"⟩
    ⟨some [1, 2, 3], false, none⟩ rfl
  exact ⟨h.1, h.2.1⟩

/-- C4: after a `prepare()` call that raised the integrity error, the
archive file is absent, the step-1 check still fails, and a second
`prepare()` call (under any environment) therefore executes the
download step. -/
theorem C4_retry_downloads (d : Descriptor) (root : String)
    (env env' : Env) (fs : FS) (msg : String)
    (hfail : (prepare d root env fs).result = .error (.integrity msg)) :
    (prepare d root env fs).fs.archive = none ∧
    shortCircuitStep (prepare d root env fs).fs = false ∧
    (prepare d root env' (prepare d root env fs).fs).log.ranDownload
      = true := by
  by_cases hsc : shortCircuitStep fs = true
  · rw [prepare_shortCircuit d root env fs hsc] at hfail
    exact absurd hfail (by simp)
  · rw [Bool.not_eq_true] at hsc
    have hmis : md5File (effectiveArchive env fs) ≠ d.checksum :=
      ((prepare_integrity_iff d root env fs msg hsc).mp hfail).1
    rw [prepare_mismatch d root env fs hsc hmis]
    have hsc' : shortCircuitStep ({ fs with archive := none } : FS) = false := by
      simpa [shortCircuitStep] using hsc
    refine ⟨rfl, hsc', ?_⟩
    rw [(prepare_log_of_not_shortCircuit d root env'
      ({ fs with archive := none } : FS) hsc').1]
    rfl

/-- Witness for C4: a first call that fails verification, followed by
a second call that downloads. -/
theorem C4_retry_downloads_witness :
    (prepare ⟨"MNIST", "http://host/a.tgz", "deadbeef", "a.tgz", "mnist"⟩
        "datasets/data"
        ⟨[], fun _ => some true, "2026-10-12T00:00:00+00:00", "/home/user"⟩
        ⟨some [], false, none⟩).fs.archive = none ∧
    (prepare ⟨"MNIST", "http://host/a.tgz", "deadbeef", "a.tgz", "mnist"⟩
        "datasets/data"
        ⟨[], fun _ => some true, "2026-10-12T00:00:00+00:00", "/home/user"⟩
        (prepare ⟨"MNIST", "http://host/a.tgz", "deadbeef", "a.tgz", "mnist"⟩
          "datasets/data"
          ⟨[], fun _ => some true, "2026-10-12T00:00:00+00:00", "/home/user"⟩
          ⟨some [], false, none⟩).fs).log.ranDownload = true := by
  have h := C4_retry_downloads
    ⟨"MNIST", "http://host/a.tgz", "deadbeef", "a.tgz", "mnist"⟩
    "datasets/data"
    ⟨[], fun _ => some true, "2026-10-12T00:00:00+00:00", "/home/user"⟩
    ⟨[], fun _ => some true, "2026-10-12T00:00:00+00:00", "/home/user"⟩
    ⟨some [], false, none⟩ "MNIST archive checksum mismatch." (by decide)
  exact ⟨h.1, h.2.2⟩

/-- C5: a `prepare()` call that reaches the manifest-write step leaves
at `manifest_path` the complete record `json.dump` serializes — a
valid JSON object, every value being a string — with exactly the seven
keys in order; all values are non-empty when the descriptor fields and
the timestamp are; `checksum` equals the descriptor's expected digest;
and `dataset_path` and `archive_path` are absolute. -/
theorem C5_manifest_complete (d : Descriptor) (root : String) (env : Env)
    (fs : FS)
    (hrun : (prepare d root env fs).log.ranWriteManifest = true)
    (hname : d.name ≠ "") (hurl : d.url ≠ "")
    (harch : d.archive_name ≠ "") (hsum : d.checksum ≠ "")
    (hnow : env.now ≠ "") (hcwd : isAbsolutePath env.cwd = true) :
    (prepare d root env fs).fs.manifest =
      some (.record (mkManifest d root env)) ∧
    (manifestJson (mkManifest d root env)).map Prod.fst =
      ["name", "source_url", "archive_name", "checksum", "prepared_at",
       "dataset_path", "archive_path"] ∧
    (∀ kv ∈ manifestJson (mkManifest d root env), kv.2 ≠ "") ∧
    (mkManifest d root env).checksum = d.checksum ∧
    isAbsolutePath (mkManifest d root env).dataset_path = true ∧
    isAbsolutePath (mkManifest d root env).archive_path = true := by
  have hman : (prepare d root env fs).fs.manifest =
      some (.record (mkManifest d root env)) := by
    by_cases hsc : shortCircuitStep fs = true
    · rw [prepare_shortCircuit d root env fs hsc] at hrun
      exact absurd hrun (by simp)
    · rw [Bool.not_eq_true] at hsc
      by_cases hm : md5File (effectiveArchive env fs) = d.checksum
      · cases hu : env.unpack (effectiveArchive env fs) with
        | none =>
          rw [prepare_extractFail d root env fs hsc hm hu] at hrun
          exact absurd hrun (by simp)
        | some b => rw [prepare_success d root env fs b hsc hm hu]
      · rw [prepare_mismatch d root env fs hsc hm] at hrun
        exact absurd hrun (by simp)
  refine ⟨hman, rfl, ?_, rfl,
    isAbsolutePath_resolve _ _ hcwd, isAbsolutePath_resolve _ _ hcwd⟩
  intro kv hkv
  simp only [manifestJson, mkManifest, List.mem_cons,
    List.not_mem_nil, or_false] at hkv
  rcases hkv with rfl | rfl | rfl | rfl | rfl | rfl | rfl
  · exact hname
  · exact hurl
  · exact harch
  · exact hsum
  · exact hnow
  · exact resolve_ne_empty _ _ hcwd
  · exact resolve_ne_empty _ _ hcwd

/-- Witness for C5: a full successful run over an empty archive whose
checksum is MD5 of the empty byte sequence. -/
theorem C5_manifest_complete_witness :
    (prepare ⟨"MNIST", "http://host/a.tgz",
        "d41d8cd98f00b204e9800998ecf8427e", "a.tgz", "mnist"⟩
        "datasets/data"
        ⟨[], fun _ => some true, "2026-10-12T00:00:00+00:00", "/home/user"⟩
        ⟨some [], false, none⟩).fs.manifest =
      some (.record (mkManifest
        ⟨"MNIST", "http://host/a.tgz",
         "d41d8cd98f00b204e9800998ecf8427e", "a.tgz", "mnist"⟩
        "datasets/data"
        ⟨[], fun _ => some true, "2026-10-12T00:00:00+00:00", "/home/user"⟩)) ∧
    isAbsolutePath (mkManifest
        ⟨"MNIST", "http://host/a.tgz",
         "d41d8cd98f00b204e9800998ecf8427e", "a.tgz", "mnist"⟩
        "datasets/data"
        ⟨[], fun _ => some true, "2026-10-12T00:00:00+00:00", "/home/user"⟩).dataset_path
      = true := by
  have h := C5_manifest_complete
    ⟨"MNIST", "http://host/a.tgz",
     "d41d8cd98f00b204e9800998ecf8427e", "a.tgz", "mnist"⟩
    "datasets/data"
    ⟨[], fun _ => some true, "2026-10-12T00:00:00+00:00", "/home/user"⟩
    ⟨some [], false, none⟩ (by decide) (by decide) (by decide)
    (by decide) (by decide) (by decide) (by decide)
  exact ⟨h.1, h.2.2.2.2.1⟩

/-- C6: the digest `Dataset._md5` computes by streaming the file in
8192-byte chunks equals the digest of the file's full contents in one
pass, for every byte sequence — in particular for the empty file, a
1-byte file, a file of exactly one chunk, and several chunks plus a
remainder. -/
theorem C6_chunked_hash_eq (content : List Nat) :
    md5File content = md5Hex content := by
  unfold md5File MD5Ctx.hexdigest
  rw [foldl_update_eq]
  have h : (chunksOf 8192 content).flatten = content :=
    join_chunksOf 8192 (by norm_num) content
  simp [MD5Ctx.init, List.append_eq, h]

/-- Lowers an ASCII uppercase letter; other characters (in particular
hex digits) are unchanged. -/
def lowerHexChar (c : Char) : Char :=
  if 65 ≤ c.toNat ∧ c.toNat ≤ 90 then Char.ofNat (c.toNat + 32) else c

/-- Equality of two hex strings up to letter case. -/
def eqUpToHexCase (a b : String) : Bool :=
  a.data.map lowerHexChar == b.data.map lowerHexChar

/-- C7 as stated is false: the code compares
`self._md5(self.archive_path) != self.checksum` with exact
case-sensitive string equality, so an expected checksum that equals
the computed lowercase digest up to hexadecimal letter case still
fails verification. Concretely, the empty archive's digest equals
`"D41D8CD98F00B204E9800998ECF8427E"` up to case, yet `prepare()`
raises the integrity error. -/
theorem C7_counterexample :
    eqUpToHexCase (md5File [])
      "D41D8CD98F00B204E9800998ECF8427E" = true ∧
    md5File [] ≠ "D41D8CD98F00B204E9800998ECF8427E" ∧
    (prepare ⟨"MNIST", "http://host/a.tgz",
        "D41D8CD98F00B204E9800998ECF8427E", "a.tgz", "mnist"⟩
        "datasets/data"
        ⟨[], fun _ => some true, "2026-10-12T00:00:00+00:00", "/home/user"⟩
        ⟨some [], false, none⟩).result =
      .error (.integrity "MNIST archive checksum mismatch.") :=
  ⟨by decide, by decide, by decide⟩

/-- C7 amended: whenever verification runs, it passes exactly when the
computed lowercase hex digest is string-equal to the stored checksum —
the comparison is exact and case-sensitive, with no canonicalization
of either side. -/
theorem C7_exact_comparison (d : Descriptor) (root : String) (env : Env)
    (fs : FS) (hsc : shortCircuitStep fs = false) :
    (prepare d root env fs).result =
        .error (.integrity (d.name ++ " archive checksum mismatch.")) ↔
      md5File (effectiveArchive env fs) ≠ d.checksum := by
  rw [prepare_integrity_iff d root env fs _ hsc]
  simp

/-- Witness for C7's amended statement at a concrete state. -/
theorem C7_exact_comparison_witness :
    (prepare ⟨"MNIST", "http://host/a.tgz", "deadbeef", "a.tgz", "mnist"⟩
        "datasets/data"
        ⟨[], fun _ => some true, "2026-10-12T00:00:00+00:00", "/home/user"⟩
        ⟨some [], false, none⟩).result =
        .error (.integrity ("MNIST" ++ " archive checksum mismatch.")) ↔
      md5File (effectiveArchive
        ⟨[], fun _ => some true, "2026-10-12T00:00:00+00:00", "/home/user"⟩
        ⟨some [], false, none⟩) ≠ "deadbeef" :=
  C7_exact_comparison
    ⟨"MNIST", "http://host/a.tgz", "deadbeef", "a.tgz", "mnist"⟩
    "datasets/data"
    ⟨[], fun _ => some true, "2026-10-12T00:00:00+00:00", "/home/user"⟩
    ⟨some [], false, none⟩ rfl

/-- C8: when extraction fails, the error propagates out of
`prepare()`, no manifest is written, and the archive file is left in
place; a subsequent call does not short-circuit, skips the download,
re-verifies the same archive bytes, and — the digest still matching —
attempts extraction again. -/
theorem C8_extraction_error (d : Descriptor) (root : String)
    (env env' : Env) (fs : FS) (hsc : shortCircuitStep fs = false)
    (hok : md5File (effectiveArchive env fs) = d.checksum)
    (hun : env.unpack (effectiveArchive env fs) = none) :
    (prepare d root env fs).result = .error .extraction ∧
    (prepare d root env fs).fs.manifest = fs.manifest ∧
    (prepare d root env fs).fs.archive =
      some (effectiveArchive env fs) ∧
    shortCircuitStep (prepare d root env fs).fs = false ∧
    effectiveArchive env' (prepare d root env fs).fs =
      effectiveArchive env fs ∧
    (prepare d root env' (prepare d root env fs).fs).log.ranDownload
      = false ∧
    (prepare d root env' (prepare d root env fs).fs).log.ranVerify
      = true ∧
    (prepare d root env' (prepare d root env fs).fs).log.ranExtract
      = true := by
  rw [prepare_extractFail d root env fs hsc hok hun]
  have hsc' : shortCircuitStep
      ({ fs with archive := some (effectiveArchive env fs) } : FS)
      = false := by
    simpa [shortCircuitStep] using hsc
  have heff : effectiveArchive env'
      ({ fs with archive := some (effectiveArchive env fs) } : FS)
      = effectiveArchive env fs := rfl
  refine ⟨rfl, rfl, rfl, hsc', heff, ?_, ?_, ?_⟩
  · rw [(prepare_log_of_not_shortCircuit d root env' _ hsc').1]
    simp
  · exact (prepare_log_of_not_shortCircuit d root env' _ hsc').2
  · have hok' : md5File (effectiveArchive env'
        ({ fs with archive := some (effectiveArchive env fs) } : FS))
        = d.checksum := by rw [heff]; exact hok
    cases hu' : env'.unpack (effectiveArchive env'
        ({ fs with archive := some (effectiveArchive env fs) } : FS)) with
    | none => rw [prepare_extractFail d root env' _ hsc' hok' hu']
    | some b => rw [prepare_success d root env' _ b hsc' hok' hu']

/-- Witness for C8: a failing extraction over an empty archive whose
checksum matches, followed by a call that retries without
downloading. -/
theorem C8_extraction_error_witness :
    (prepare ⟨"MNIST", "http://host/a.tgz",
        "d41d8cd98f00b204e9800998ecf8427e", "a.tgz", "mnist"⟩
        "datasets/data"
        ⟨[], fun _ => none, "2026-10-12T00:00:00+00:00", "/home/user"⟩
        ⟨some [], false, none⟩).result = .error .extraction ∧
    (prepare ⟨"MNIST", "http://host/a.tgz",
        "d41d8cd98f00b204e9800998ecf8427e", "a.tgz", "mnist"⟩
        "datasets/data"
        ⟨[], fun _ => none, "2026-10-12T00:00:00+00:00", "/home/user"⟩
        (prepare ⟨"MNIST", "http://host/a.tgz",
          "d41d8cd98f00b204e9800998ecf8427e", "a.tgz", "mnist"⟩
          "datasets/data"
          ⟨[], fun _ => none, "2026-10-12T00:00:00+00:00", "/home/user"⟩
          ⟨some [], false, none⟩).fs).log.ranDownload = false := by
  have h := C8_extraction_error
    ⟨"MNIST", "http://host/a.tgz",
     "d41d8cd98f00b204e9800998ecf8427e", "a.tgz", "mnist"⟩
    "datasets/data"
    ⟨[], fun _ => none, "2026-10-12T00:00:00+00:00", "/home/user"⟩
    ⟨[], fun _ => none, "2026-10-12T00:00:00+00:00", "/home/user"⟩
    ⟨some [], false, none⟩ rfl (by decide) rfl
  exact ⟨h.1, h.2.2.2.2.2.1⟩

/-- C9 as stated is false: `_write_manifest` opens `manifest_path`
with mode `"w"`, which truncates the file before `json.dump` writes
the record, so between those two points a reader observes an empty
manifest file — neither the previous content (here: no file) nor the
complete record. -/
theorem C9_counterexample :
    ((writeManifestStates
        ⟨"MNIST", "http://host/a.tgz", "a.tgz",
         "d41d8cd98f00b204e9800998ecf8427e",
         "2026-10-12T00:00:00+00:00", "/w/datasets/data/mnist",
         "/w/datasets/data/a.tgz"⟩
        ⟨some [1], false, none⟩).getD 1 ⟨none, false, none⟩).manifest ≠
      (⟨some [1], false, none⟩ : FS).manifest ∧
    ((writeManifestStates
        ⟨"MNIST", "http://host/a.tgz", "a.tgz",
         "d41d8cd98f00b204e9800998ecf8427e",
         "2026-10-12T00:00:00+00:00", "/w/datasets/data/mnist",
         "/w/datasets/data/a.tgz"⟩
        ⟨some [1], false, none⟩).getD 1 ⟨none, false, none⟩).manifest ≠
      some (.record
        ⟨"MNIST", "http://host/a.tgz", "a.tgz",
         "d41d8cd98f00b204e9800998ecf8427e",
         "2026-10-12T00:00:00+00:00", "/w/datasets/data/mnist",
         "/w/datasets/data/a.tgz"⟩) :=
  ⟨by decide, by decide⟩

/-- C9 amended: the manifest write is truncate-then-write, not
all-or-nothing: the observable contents of `manifest_path` during
`_write_manifest` are the previous content, then the empty truncated
file, then the complete record, which is what the final state holds. -/
theorem C9_truncate_then_write (m : Manifest) (fs : FS) :
    writeManifestStates m fs =
      [fs, { fs with manifest := some .empty },
       { fs with manifest := some (.record m) }] ∧
    ∀ g ∈ writeManifestStates m fs,
      g.manifest = fs.manifest ∨ g.manifest = some MFile.empty ∨
        g.manifest = some (.record m) := by
  refine ⟨rfl, ?_⟩
  intro g hg
  simp only [writeManifestStates, List.mem_cons, List.not_mem_nil,
    or_false] at hg
  rcases hg with rfl | rfl | rfl
  · exact Or.inl rfl
  · exact Or.inr (Or.inl rfl)
  · exact Or.inr (Or.inr rfl)

/-- C10: `prepare()` never checks that extraction created
`extracted_path`: when the archive verifies but does not contain
`extracted_dir` as a top-level entry, the manifest is still written
and `extracted_path` is still returned although it does not exist on
disk, and the next call fails the step-1 check and runs the pipeline
(including verification) again. -/
theorem C10_no_extraction_check (d : Descriptor) (root : String)
    (env : Env) (fs : FS) (hext : fs.extractedDirExists = false)
    (hok : md5File (effectiveArchive env fs) = d.checksum)
    (hun : env.unpack (effectiveArchive env fs) = some false) :
    (prepare d root env fs).result = .ok (extractedPath d root) ∧
    (prepare d root env fs).log.ranWriteManifest = true ∧
    (prepare d root env fs).fs.manifest =
      some (.record (mkManifest d root env)) ∧
    (prepare d root env fs).fs.extractedDirExists = false ∧
    shortCircuitStep (prepare d root env fs).fs = false ∧
    (prepare d root env (prepare d root env fs).fs).log.ranVerify
      = true := by
  have hsc : shortCircuitStep fs = false := by
    simp [shortCircuitStep, hext]
  rw [prepare_success d root env fs false hsc hok hun]
  have hext' : (fs.extractedDirExists || false) = false := by
    simp [hext]
  have hsc' : shortCircuitStep
      ({ fs with
          archive := some (effectiveArchive env fs),
          extractedDirExists := fs.extractedDirExists || false,
          manifest := some (.record (mkManifest d root env)) } : FS)
      = false := by
    simp [shortCircuitStep, hext]
  exact ⟨rfl, rfl, rfl, hext', hsc',
    (prepare_log_of_not_shortCircuit d root env _ hsc').2⟩

/-- Witness for C10: a verified archive that creates no
`extracted_dir` entry still yields a successful `prepare()`. -/
theorem C10_no_extraction_check_witness :
    (prepare ⟨"MNIST", "http://host/a.tgz",
        "d41d8cd98f00b204e9800998ecf8427e", "a.tgz", "mnist"⟩
        "datasets/data"
        ⟨[], fun _ => some false, "2026-10-12T00:00:00+00:00", "/home/user"⟩
        ⟨some [], false, none⟩).result = .ok "datasets/data/mnist" ∧
    (prepare ⟨"MNIST", "http://host/a.tgz",
        "d41d8cd98f00b204e9800998ecf8427e", "a.tgz", "mnist"⟩
        "datasets/data"
        ⟨[], fun _ => some false, "2026-10-12T00:00:00+00:00", "/home/user"⟩
        ⟨some [], false, none⟩).fs.extractedDirExists = false := by
  have h := C10_no_extraction_check
    ⟨"MNIST", "http://host/a.tgz",
     "d41d8cd98f00b204e9800998ecf8427e", "a.tgz", "mnist"⟩
    "datasets/data"
    ⟨[], fun _ => some false, "2026-10-12T00:00:00+00:00", "/home/user"⟩
    ⟨some [], false, none⟩ rfl (by decide) rfl
  exact ⟨h.1, h.2.2.2.1⟩
